import Mathlib

/-
Shallow embedding of the LearningHub progress-aggregation and
assessment-scoring subsystem (Go / Gin / GORM).

Conventions of the embedding:
* Database tables are Lean lists of records; GORM `First(...)` with a filter
  is `List.find?` (first row in storage order), `Create` appends, and `Save`
  replaces every row whose primary key equals the saved record's key.
* A handler is a function from a committed database state to
  `Except Err (new state)` (or `Except Err (state × returned record)`);
  returning `.error` models the handler aborting before commit, leaving the
  caller with the original state.
* `time.Now()` is passed in as a `now : Nat` parameter; `time.Time` zero
  values are `Option Nat` set to `none`.
* Go `float64` values that stay finite (sums and comparisons of snapshotted
  integer point values, progress percentages) are modelled as `ℚ`; the one
  place the source divides without a zero guard (quiz score) is modelled with
  `GoFloat`, which represents IEEE-754 `NaN` and the infinities explicitly so
  that `x / 0` is not silently collapsed to `0` the way bare `ℚ` division
  would.
* Go strings are `List Char`; `strings.ToLower`'s per-character case mapping
  is an explicit parameter `low : Char → Char`, since every property proved
  here holds for any single-character lowercasing map.
-/

namespace LearningHub

/-- Decidable equality for handler results (used only to evaluate the
embedded handlers on concrete inputs). -/
instance exceptDecEq {ε α : Type} [DecidableEq ε] [DecidableEq α] :
    DecidableEq (Except ε α) := fun x y =>
  match x, y with
  | .ok a, .ok b =>
    decidable_of_iff (a = b) ⟨fun h => by rw [h], fun h => by injection h⟩
  | .error a, .error b =>
    decidable_of_iff (a = b) ⟨fun h => by rw [h], fun h => by injection h⟩
  | .ok _, .error _ => isFalse (fun h => Except.noConfusion h)
  | .error _, .ok _ => isFalse (fun h => Except.noConfusion h)

/-- Error kinds surfaced by the handlers (each corresponds to a distinct
HTTP error response in the source). -/
inductive Err where
  | notFound
  | forbidden
  | recordNotFound
  | courseNotCompleted
  | alreadyIssued
  | invalidGrade
  | requiredFieldZero
  | progressRecordsExist
  deriving DecidableEq, Repr

/-- Go strings, as lists of characters. -/
abbrev GoStr := List Char

/-- The whitespace predicate of Go's `unicode.IsSpace` (the Unicode
White_Space property, which is exactly what `strings.TrimSpace` trims). -/
def isGoSpace (c : Char) : Bool :=
  c == ' ' || c == '\t' || c == '\n' || (0x0B ≤ c.toNat && c.toNat ≤ 0x0D) ||
  c.toNat == 0x85 || c.toNat == 0xA0 || c.toNat == 0x1680 ||
  (0x2000 ≤ c.toNat && c.toNat ≤ 0x200A) ||
  c.toNat == 0x2028 || c.toNat == 0x2029 || c.toNat == 0x202F ||
  c.toNat == 0x205F || c.toNat == 0x3000

/-- `strings.TrimSpace`: drop leading and trailing whitespace. -/
def goTrimSpace (s : GoStr) : GoStr :=
  ((s.dropWhile isGoSpace).reverse.dropWhile isGoSpace).reverse

/-- `strings.Contains s sub`: substring search (true when `sub` occurs
contiguously inside `s`; always true for the empty `sub`). -/
def goContains (s sub : GoStr) : Bool :=
  match s with
  | [] => sub.isEmpty
  | c :: t => sub.isPrefixOf (c :: t) || goContains t sub

/-- `normalizeString` from the assessment handler:
`strings.ToLower(strings.TrimSpace(s))`, with the per-character case map
abstracted as `low`. -/
def normalizeString (low : Char → Char) (s : GoStr) : GoStr :=
  (goTrimSpace s).map low

/-- A Go `float64` result that may be non-finite: the quiz-score division is
performed without a divide-by-zero guard, so `NaN` and the infinities are
representable. -/
inductive GoFloat where
  | finite (q : ℚ)
  | posInf
  | negInf
  | nan
  deriving DecidableEq, Repr

/-- IEEE-754 division of two finite `float64` values (`earned / total` in
`CompleteQuizAttempt`): division by (positive) zero yields `NaN` for a zero
numerator and a signed infinity otherwise. -/
def goDivFloat (a b : ℚ) : GoFloat :=
  if b = 0 then
    (if a = 0 then .nan else if 0 < a then .posInf else .negInf)
  else .finite (a / b)

/-- Multiplication of a `float64` by the positive constant `100`
(`... * 100` in the score computation): finite values scale, `NaN` and the
infinities are preserved. -/
def GoFloat.times100 : GoFloat → GoFloat
  | .finite q => .finite (q * 100)
  | .posInf => .posInf
  | .negInf => .negInf
  | .nan => .nan

/-- The comparison `score >= float64(passingScore)`: any comparison with
`NaN` is false. -/
def GoFloat.geIntAsFloat (x : GoFloat) (n : Int) : Bool :=
  match x with
  | .finite q => decide ((n : ℚ) ≤ q)
  | .posInf => true
  | .negInf => false
  | .nan => false

/-- `models.QuestionType`: the four recognized string constants plus a case
for any other string (the handler's `default` branch). -/
inductive QuestionType where
  | multipleChoice
  | trueFalse
  | shortAnswer
  | coding
  | unrecognized
  deriving DecidableEq, Repr

/-- `models.QuizQuestion` (the fields the assessment handler reads). -/
structure QuizQuestion where
  id : Nat
  quizId : Nat
  questionType : QuestionType
  correctAnswer : GoStr
  points : Int
  deriving DecidableEq, Repr

/-- `models.Quiz` (the fields the attempt lifecycle reads). -/
structure Quiz where
  id : Nat
  courseId : Nat
  passingScore : Int
  isPublished : Bool
  deriving DecidableEq, Repr

/-- `models.QuizAttempt`. `score` is a `GoFloat` because the source stores
the unguarded division result. -/
structure QuizAttempt where
  id : Nat
  userId : Nat
  quizId : Nat
  score : GoFloat
  totalPoints : ℚ
  earnedPoints : ℚ
  isCompleted : Bool
  isPassed : Bool
  startedAt : Nat
  completedAt : Option Nat
  timeSpent : Int
  deriving DecidableEq, Repr

/-- `models.QuizAnswer`. -/
structure QuizAnswer where
  id : Nat
  attemptId : Nat
  questionId : Nat
  answer : GoStr
  isCorrect : Bool
  pointsEarned : ℚ
  deriving DecidableEq, Repr

/-- The tables the quiz engine touches. -/
structure QuizDb where
  quizzes : List Quiz
  questions : List QuizQuestion
  attempts : List QuizAttempt
  answers : List QuizAnswer
  deriving DecidableEq, Repr

/-- `checkAnswer` from the assessment handler: normalized exact match for
multiple-choice and true/false, two-way substring containment for short
answers, exact match for coding and any unrecognized type. -/
def checkAnswer (low : Char → Char) (q : QuizQuestion) (answer : GoStr) : Bool :=
  match q.questionType with
  | .multipleChoice => normalizeString low q.correctAnswer == normalizeString low answer
  | .trueFalse => normalizeString low q.correctAnswer == normalizeString low answer
  | .shortAnswer =>
      goContains (normalizeString low q.correctAnswer) (normalizeString low answer) ||
      goContains (normalizeString low answer) (normalizeString low q.correctAnswer)
  | .coding => normalizeString low q.correctAnswer == normalizeString low answer
  | .unrecognized => normalizeString low q.correctAnswer == normalizeString low answer

/-- Points stored with a graded answer: the question's full point value when
correct, otherwise `0` (both the create and the update branch of
`SubmitQuizAnswer` compute exactly this). -/
def answerPointsEarned (low : Char → Char) (q : QuizQuestion) (a : GoStr) : ℚ :=
  if checkAnswer low q a then (q.points : ℚ) else 0

/-- A fresh auto-increment primary key for the answers table. -/
def freshAnswerId (st : QuizDb) : Nat :=
  (st.answers.map QuizAnswer.id).foldr Nat.max 0 + 1

/-- `First(&attempt, "id = ? AND user_id = ?", attemptID, userID)`. -/
def findAttempt (st : QuizDb) (aid uid : Nat) : Option QuizAttempt :=
  st.attempts.find? (fun x => x.id == aid && x.userId == uid)

/-- `SubmitQuizAnswer`: reject when the attempt is missing or completed,
locate the question inside the attempt's quiz (the source's scan leaves the
zero-valued question, ID `0`, when nothing matches), grade the answer, and
upsert the `QuizAnswer` row. -/
def submitQuizAnswer (low : Char → Char) (st : QuizDb) (uid aid qid : Nat)
    (ans : GoStr) : Except Err (QuizDb × QuizAnswer) :=
  match findAttempt st aid uid with
  | none => .error .notFound
  | some att =>
    if att.isCompleted then .error .forbidden
    else
      match (st.questions.filter (fun q => q.quizId == att.quizId)).find?
          (fun q => q.id == qid) with
      | none => .error .notFound
      | some q =>
        if q.id == 0 then .error .notFound
        else
          match st.answers.find? (fun x => x.attemptId == aid && x.questionId == qid) with
          | none =>
            let a : QuizAnswer :=
              { id := freshAnswerId st, attemptId := att.id, questionId := qid,
                answer := ans, isCorrect := checkAnswer low q ans,
                pointsEarned := answerPointsEarned low q ans }
            .ok ({ st with answers := st.answers ++ [a] }, a)
          | some ex =>
            let a : QuizAnswer :=
              { ex with
                  answer := ans, isCorrect := checkAnswer low q ans,
                  pointsEarned := answerPointsEarned low q ans }
            .ok ({ st with answers :=
                    st.answers.map (fun x => if x.id == ex.id then a else x) }, a)

/-- `CompleteQuizAttempt`: return an already-completed attempt unchanged;
otherwise sum the recorded answers' points, compute
`score = (earned / totalPoints) * 100` (unguarded float division), compare
against the quiz's passing score (a missing quiz preloads as the zero value,
passing score `0`), stamp completion, and save. -/
def completeQuizAttempt (st : QuizDb) (now uid aid : Nat) :
    Except Err (QuizDb × QuizAttempt) :=
  match findAttempt st aid uid with
  | none => .error .notFound
  | some att =>
    if att.isCompleted then .ok (st, att)
    else
      let answers := st.answers.filter (fun x => x.attemptId == att.id)
      let earned := (answers.map QuizAnswer.pointsEarned).sum
      let score := (goDivFloat earned att.totalPoints).times100
      let passing := ((st.quizzes.find? (fun z => z.id == att.quizId)).map
        Quiz.passingScore).getD 0
      let att2 : QuizAttempt :=
        { att with
            score := score, earnedPoints := earned, isCompleted := true,
            isPassed := score.geIntAsFloat passing, completedAt := some now,
            timeSpent := (now : Int) - (att.startedAt : Int) }
      .ok ({ st with attempts :=
              st.attempts.map (fun x => if x.id == att.id then att2 else x) }, att2)

/-- `models.Module` (named `CourseModule` here because `Module` is taken). -/
structure CourseModule where
  id : Nat
  courseId : Nat
  deriving DecidableEq, Repr

/-- `models.Lesson` (the fields the progress handlers read). -/
structure Lesson where
  id : Nat
  moduleId : Nat
  deriving DecidableEq, Repr

/-- `models.LessonProgress`. -/
structure LessonProgress where
  id : Nat
  userId : Nat
  lessonId : Nat
  courseId : Nat
  completed : Bool
  completedAt : Option Nat
  timeSpent : Int
  deriving DecidableEq, Repr

/-- `models.Enrollment` (the extended variant with detailed progress
tracking and the certificate reference). -/
structure Enrollment where
  id : Nat
  userId : Nat
  courseId : Nat
  progress : ℚ
  totalLessons : Int
  completedLessons : Int
  timeSpent : Int
  certificateId : Option String
  completedAt : Option Nat
  certificateIssuedAt : Option Nat
  lastActivityAt : Nat
  deriving DecidableEq, Repr

/-- `models.Certificate` (the fields `createCertificate` writes). -/
structure Certificate where
  id : String
  enrollmentId : Nat
  userId : Nat
  courseId : Nat
  issueDate : Nat
  expiryDate : Option Nat
  verificationCode : String
  deriving DecidableEq, Repr

/-- The tables the progress/certificate handlers touch. -/
structure Db where
  modules : List CourseModule
  lessons : List Lesson
  progresses : List LessonProgress
  enrollments : List Enrollment
  certificates : List Certificate
  deriving DecidableEq, Repr

/-- The course a lesson belongs to, through its preloaded module
(`lesson.Module.CourseID`; a missing module preloads as the zero value,
course `0`). Module ids are a primary key, so `find?` is the join. -/
def lessonCourseId (db : Db) (l : Lesson) : Nat :=
  ((db.modules.find? (fun m => m.id == l.moduleId)).map CourseModule.courseId).getD 0

/-- `count(lessons JOIN modules ON modules.id = lessons.module_id
WHERE modules.course_id = cid)`: module ids are a primary key, so each
lesson joins at most one module and the count is a filtered length. -/
def totalLessonsCount (db : Db) (cid : Nat) : Nat :=
  (db.lessons.filter (fun l =>
    db.modules.any (fun m => m.id == l.moduleId && m.courseId == cid))).length

/-- The completed-lessons count of `calculateDetailedProgress`: progress
rows of the user joined through `lessons` and `modules` to the course, with
`completed = true`. -/
def completedLessonsJoin (db : Db) (uid cid : Nat) : Nat :=
  (db.progresses.filter (fun p =>
    p.userId == uid && p.completed &&
    db.lessons.any (fun l => l.id == p.lessonId &&
      db.modules.any (fun m => m.id == l.moduleId && m.courseId == cid)))).length

/-- `COALESCE(SUM(lesson_progresses.time_spent), 0)` over the same join. -/
def timeSpentJoin (db : Db) (uid cid : Nat) : Int :=
  ((db.progresses.filter (fun p =>
    p.userId == uid &&
    db.lessons.any (fun l => l.id == p.lessonId &&
      db.modules.any (fun m => m.id == l.moduleId && m.courseId == cid)))).map
    LessonProgress.timeSpent).sum

/-- The record returned by `calculateDetailedProgress`. -/
structure DetailedProgress where
  progressPercentage : ℚ
  completedLessons : Nat
  totalLessons : Nat
  timeSpentMinutes : Int
  deriving DecidableEq, Repr

/-- `calculateDetailedProgress(courseID, userID)`: counts and time over the
given database state, `progress = completed/total*100` when `total > 0`,
else `0`. -/
def calculateDetailedProgress (db : Db) (cid uid : Nat) : DetailedProgress :=
  let total := totalLessonsCount db cid
  let completed := completedLessonsJoin db uid cid
  { progressPercentage :=
      if 0 < total then (completed : ℚ) / (total : ℚ) * 100 else 0,
    completedLessons := completed,
    totalLessons := total,
    timeSpentMinutes := timeSpentJoin db uid cid }

/-- `Where("user_id = ? AND course_id = ?").First(&enrollment)`. -/
def findEnrollment (db : Db) (uid cid : Nat) : Option Enrollment :=
  db.enrollments.find? (fun e => e.userId == uid && e.courseId == cid)

/-- GORM `Save(&enrollment)`: replace the row with the same primary key. -/
def saveEnrollment (db : Db) (e : Enrollment) : Db :=
  { db with enrollments := db.enrollments.map (fun x => if x.id == e.id then e else x) }

/-- `Where("user_id = ? AND lesson_id = ?").First(&lessonProgress)`. -/
def findLessonProgress (db : Db) (uid lid : Nat) : Option LessonProgress :=
  db.progresses.find? (fun p => p.userId == uid && p.lessonId == lid)

/-- GORM `Save(&lessonProgress)`. -/
def saveLessonProgress (db : Db) (p : LessonProgress) : Db :=
  { db with progresses := db.progresses.map (fun x => if x.id == p.id then p else x) }

/-- GORM `Create(&lessonProgress)`: append with a caller-chosen fresh key. -/
def createLessonProgress (db : Db) (p : LessonProgress) : Db :=
  { db with progresses := db.progresses ++ [p] }

/-- A fresh auto-increment primary key for the lesson-progress table. -/
def freshProgressId (db : Db) : Nat :=
  (db.progresses.map LessonProgress.id).foldr Nat.max 0 + 1

/-- `First(&lesson, lessonID)`. -/
def findLesson (db : Db) (lid : Nat) : Option Lesson :=
  db.lessons.find? (fun l => l.id == lid)

/-- `updateEnrollmentProgress(tx, userID, courseID)`. The enrollment row is
read from and saved to the transaction's view `txDb`, but the helper calls
`h.calculateDetailedProgress`, whose count/sum queries run on `h.DB` — the
base connection outside the transaction — so the aggregate is computed from
the committed snapshot `readDb`, not from `txDb`. -/
def updateEnrollmentProgress (txDb readDb : Db) (now uid cid : Nat) : Except Err Db :=
  match findEnrollment txDb uid cid with
  | none => .error .recordNotFound
  | some e =>
    let p := calculateDetailedProgress readDb cid uid
    let e1 : Enrollment :=
      { e with
          progress := p.progressPercentage,
          completedLessons := (p.completedLessons : Int),
          totalLessons := (p.totalLessons : Int),
          timeSpent := p.timeSpentMinutes,
          lastActivityAt := now }
    let e2 := { e1 with
                  completedAt := if 100 ≤ e1.progress ∧ e1.completedAt = none
                    then some now else e1.completedAt }
    .ok (saveEnrollment txDb e2)

/-- The JSON body of `ProgressHandler.UpdateLessonProgress`. -/
structure ProgressRequest where
  lessonId : Nat
  courseId : Nat
  timeSpent : Int
  completed : Bool
  deriving DecidableEq, Repr

/-- `ProgressHandler.UpdateLessonProgress` (the `PUT /progress/lesson`
entry point): inside one transaction, upsert the `(user, lesson)` progress
row — creating it from the request, or else stamping `CompletedAt` only on
the false→true transition and accumulating time — then run
`updateEnrollmentProgress` on the transaction. The transaction's own write
is visible to `tx` reads but not to `h.DB` reads, so the aggregate
recomputation receives the pre-transaction state `db` as its read view. -/
def progressHandlerUpdateLessonProgress (db : Db) (now uid : Nat)
    (req : ProgressRequest) : Except Err Db :=
  let txDb :=
    match findLessonProgress db uid req.lessonId with
    | none =>
      createLessonProgress db
        { id := freshProgressId db, userId := uid, lessonId := req.lessonId,
          courseId := req.courseId, completed := req.completed,
          completedAt := if req.completed then some now else none,
          timeSpent := req.timeSpent }
    | some lp =>
      let lp1 := { lp with
                     completedAt := if req.completed && !lp.completed
                       then some now else lp.completedAt }
      saveLessonProgress db
        { lp1 with
            completed := req.completed, timeSpent := lp1.timeSpent + req.timeSpent }
  updateEnrollmentProgress txDb db now uid req.courseId

/-- The completed-lessons count of `CourseHandler.UpdateLessonProgress`:
filtered on the denormalized `course_id` column, no join. -/
def completedLessonsByCourseColumn (db : Db) (uid cid : Nat) : Nat :=
  (db.progresses.filter (fun p =>
    p.userId == uid && p.courseId == cid && p.completed)).length

/-- `CourseHandler.UpdateLessonProgress` (mark-completed entry point, no
transaction): upsert the progress row as completed — overwriting
`CompletedAt` with `now` even when the row was already completed — then
recompute and save the enrollment's progress percentage, but only when the
course has at least one lesson. -/
def courseHandlerUpdateLessonProgress (db : Db) (now uid lid : Nat) : Except Err Db :=
  match findLesson db lid with
  | none => .error .notFound
  | some l =>
    let cid := lessonCourseId db l
    match findEnrollment db uid cid with
    | none => .error .forbidden
    | some e =>
      let db1 :=
        match findLessonProgress db uid lid with
        | none =>
          createLessonProgress db
            { id := freshProgressId db, userId := uid, lessonId := lid,
              courseId := cid, completed := true, completedAt := some now,
              timeSpent := 0 }
        | some p => saveLessonProgress db { p with completed := true, completedAt := some now }
      let total := totalLessonsCount db1 cid
      let completed := completedLessonsByCourseColumn db1 uid cid
      if 0 < total then
        .ok (saveEnrollment db1 { e with progress := (completed : ℚ) / (total : ℚ) * 100 })
      else .ok db1

/-- `LessonHandler.UpdateLessonProgress` (the time-tracking entry point):
after the enrollment authorization check, create the progress row with the
submitted time (not completed) or accumulate time on the existing row. It
performs no enrollment write and opens no transaction. -/
def lessonHandlerUpdateLessonProgress (db : Db) (uid lid : Nat)
    (timeSpentInput : Int) : Except Err Db :=
  match findLesson db lid with
  | none => .error .notFound
  | some l =>
    let cid := lessonCourseId db l
    match findEnrollment db uid cid with
    | none => .error .forbidden
    | some _ =>
      match findLessonProgress db uid lid with
      | none =>
        .ok (createLessonProgress db
          { id := freshProgressId db, userId := uid, lessonId := lid,
            courseId := cid, completed := false, completedAt := none,
            timeSpent := timeSpentInput })
      | some p =>
        .ok (saveLessonProgress db { p with timeSpent := p.timeSpent + timeSpentInput })

/-- `LessonHandler.DeleteLesson`: refuse to delete a lesson that has any
progress records referencing it; otherwise delete the row by primary key. -/
def deleteLesson (db : Db) (lid : Nat) : Except Err Db :=
  match findLesson db lid with
  | none => .error .notFound
  | some l =>
    let progressCount := (db.progresses.filter (fun p => p.lessonId == lid)).length
    if 0 < progressCount then .error .progressRecordsExist
    else .ok { db with lessons := db.lessons.filter (fun x => !(x.id == l.id)) }

/-- Two years after `t`, in seconds (`time.Now().AddDate(2, 0, 0)`,
ignoring calendar irregularities, which no claim depends on). -/
def addTwoYears (t : Nat) : Nat := t + 63072000

/-- `generateVerificationCode()`: a code derived from the clock. -/
def generateVerificationCode (now : Nat) : String :=
  "LHC-" ++ toString (now % 1000000)

/-- `ProgressHandler.GenerateCertificate` with its `createCertificate`
helper: require an enrollment with progress at least `100` and no attached
certificate reference, then create the certificate row and stamp the
enrollment's certificate reference and issuance timestamp. -/
def generateCertificate (db : Db) (now uid cid : Nat) :
    Except Err (Db × Certificate) :=
  match findEnrollment db uid cid with
  | none => .error .notFound
  | some e =>
    if e.progress < 100 then .error .courseNotCompleted
    else if e.certificateId.isSome then .error .alreadyIssued
    else
      let cert : Certificate :=
        { id := "LHC-" ++ toString e.id ++ "-" ++ toString now,
          enrollmentId := e.id, userId := e.userId, courseId := e.courseId,
          issueDate := now, expiryDate := some (addTwoYears now),
          verificationCode := generateVerificationCode now }
      let db1 := { db with certificates := db.certificates ++ [cert] }
      let e1 := { e with certificateId := some cert.id, certificateIssuedAt := some now }
      .ok (saveEnrollment db1 e1, cert)

/-- `models.Course` (the field the grading authorization reads). -/
structure Course where
  id : Nat
  instructorId : Nat
  deriving DecidableEq, Repr

/-- `models.Assignment` (the fields grading reads). -/
structure Assignment where
  id : Nat
  courseId : Nat
  maxPoints : Int
  deriving DecidableEq, Repr

/-- `models.AssignmentSubmission` (the fields grading reads and writes). -/
structure AssignmentSubmission where
  id : Nat
  assignmentId : Nat
  userId : Nat
  grade : Option ℚ
  feedback : GoStr
  isGraded : Bool
  gradedAt : Option Nat
  deriving DecidableEq, Repr

/-- The tables the assignment grading handler touches. -/
structure AssignDb where
  courses : List Course
  assignments : List Assignment
  submissions : List AssignmentSubmission
  deriving DecidableEq, Repr

/-- The JSON body of `GradeAssignment`. -/
structure GradeInput where
  grade : ℚ
  feedback : GoStr
  deriving DecidableEq, Repr

/-- The Gin binding step for `GradeAssignment`'s input: the `Grade` field is
a `float64` tagged `binding:"required"`, and the validator's `required` rule
rejects the type's zero value, so a request whose grade is `0` fails binding
before the handler body runs. -/
def bindGradeInput (inp : GradeInput) : Except Err GradeInput :=
  if inp.grade = 0 then .error .requiredFieldZero else .ok inp

/-- `GradeAssignment`: bind the input, load the submission (with its
assignment preloaded; a missing assignment preloads as the zero value) and
the course, require the caller to be the course's instructor, reject grades
outside `[0, maxPoints]`, then store grade, feedback, graded flag and
grading timestamp. -/
def gradeAssignment (st : AssignDb) (now caller sid : Nat) (inp : GradeInput) :
    Except Err (AssignDb × AssignmentSubmission) :=
  match bindGradeInput inp with
  | .error e => .error e
  | .ok inp =>
    match st.submissions.find? (fun s => s.id == sid) with
    | none => .error .notFound
    | some s =>
      let asn := (st.assignments.find? (fun a => a.id == s.assignmentId)).getD
        { id := 0, courseId := 0, maxPoints := 0 }
      match st.courses.find? (fun c => c.id == asn.courseId) with
      | none => .error .notFound
      | some course =>
        if !(course.instructorId == caller) then .error .forbidden
        else if inp.grade < 0 ∨ (asn.maxPoints : ℚ) < inp.grade then .error .invalidGrade
        else
          let s1 : AssignmentSubmission :=
            { s with
                grade := some inp.grade, feedback := inp.feedback,
                isGraded := true, gradedAt := some now }
          .ok ({ st with submissions :=
                  st.submissions.map (fun x => if x.id == s1.id then s1 else x) }, s1)

/-- The grading rule as the specification states it, per question type:
normalized equality for multiple-choice, true/false, coding and
unrecognized types; two-way substring containment (`List.IsInfix`) of the
normalized strings for short answers. Stated independently of the source's
`goContains` search loop and boolean equality test. -/
def AnswerMatchesSpec (low : Char → Char) (q : QuizQuestion) (a : GoStr) : Prop :=
  match q.questionType with
  | .multipleChoice => normalizeString low a = normalizeString low q.correctAnswer
  | .trueFalse => normalizeString low a = normalizeString low q.correctAnswer
  | .shortAnswer =>
      normalizeString low a <:+: normalizeString low q.correctAnswer ∨
      normalizeString low q.correctAnswer <:+: normalizeString low a
  | .coding => normalizeString low a = normalizeString low q.correctAnswer
  | .unrecognized => normalizeString low a = normalizeString low q.correctAnswer

/-! ### Concrete states used by witnesses, counterexamples and evaluations -/

/-- A completed stored attempt (used to exercise the idempotency and
freeze-after-completion paths). -/
def attDone : QuizAttempt :=
  { id := 1, userId := 1, quizId := 1, score := .finite 50, totalPoints := 10,
    earnedPoints := 5, isCompleted := true, isPassed := false, startedAt := 2,
    completedAt := some 8, timeSpent := 6 }

/-- A quiz database holding one completed attempt of quiz 1 with one
recorded answer. -/
def stQuizDone : QuizDb :=
  { quizzes := [{ id := 1, courseId := 1, passingScore := 70, isPublished := true }],
    questions := [{ id := 1, quizId := 1, questionType := .multipleChoice,
                    correctAnswer := ['a'], points := 10 }],
    attempts := [attDone],
    answers := [{ id := 1, attemptId := 1, questionId := 1, answer := ['a'],
                  isCorrect := true, pointsEarned := 5 }] }

/-- An in-flight attempt whose snapshotted total points are `0` (quiz 1 had
no questions when the attempt started). -/
def stQuizZeroTotal : QuizDb :=
  { quizzes := [{ id := 1, courseId := 1, passingScore := 70, isPublished := true }],
    questions := [],
    attempts := [{ id := 1, userId := 1, quizId := 1, score := .finite 0,
                   totalPoints := 0, earnedPoints := 0, isCompleted := false,
                   isPassed := false, startedAt := 2, completedAt := none,
                   timeSpent := 0 }],
    answers := [] }

/-- One course (id 1) with one module and one lesson, one enrolled user
(id 1) with a fresh enrollment and no lesson-progress rows. -/
def dbOneLessonFresh : Db :=
  { modules := [{ id := 1, courseId := 1 }],
    lessons := [{ id := 1, moduleId := 1 }],
    progresses := [],
    enrollments := [{ id := 1, userId := 1, courseId := 1, progress := 0,
                      totalLessons := 0, completedLessons := 0, timeSpent := 0,
                      certificateId := none, completedAt := none,
                      certificateIssuedAt := none, lastActivityAt := 0 }],
    certificates := [] }

/-- Same course layout, but the user's progress row for lesson 1 is already
completed with completion timestamp `3`. -/
def dbOneLessonCompletedAt3 : Db :=
  { modules := [{ id := 1, courseId := 1 }],
    lessons := [{ id := 1, moduleId := 1 }],
    progresses := [{ id := 1, userId := 1, lessonId := 1, courseId := 1,
                     completed := true, completedAt := some 3, timeSpent := 10 }],
    enrollments := [{ id := 1, userId := 1, courseId := 1, progress := 100,
                      totalLessons := 1, completedLessons := 1, timeSpent := 10,
                      certificateId := none, completedAt := some 3,
                      certificateIssuedAt := none, lastActivityAt := 3 }],
    certificates := [] }

/-- An enrollment eligible for certificate issuance (progress 100, no
certificate attached). -/
def dbCertEligible : Db :=
  { modules := [{ id := 1, courseId := 1 }],
    lessons := [{ id := 1, moduleId := 1 }],
    progresses := [{ id := 1, userId := 1, lessonId := 1, courseId := 1,
                     completed := true, completedAt := some 3, timeSpent := 10 }],
    enrollments := [{ id := 7, userId := 1, courseId := 1, progress := 100,
                      totalLessons := 1, completedLessons := 1, timeSpent := 10,
                      certificateId := none, completedAt := some 3,
                      certificateIssuedAt := none, lastActivityAt := 3 }],
    certificates := [] }

/-- One course taught by instructor 2, one assignment worth 100 points, one
ungraded submission by student 3. -/
def stAssign : AssignDb :=
  { courses := [{ id := 1, instructorId := 2 }],
    assignments := [{ id := 1, courseId := 1, maxPoints := 100 }],
    submissions := [{ id := 1, assignmentId := 1, userId := 3, grade := none,
                      feedback := [], isGraded := false, gradedAt := none }] }

/-- The submission of `stAssign` after being graded 85 with feedback "ok"
at time 9. -/
def gradedSubW : AssignmentSubmission :=
  { id := 1, assignmentId := 1, userId := 3, grade := some 85,
    feedback := ['o', 'k'], isGraded := true, gradedAt := some 9 }

/-- `stAssign` after the grading write. -/
def stAssignGraded : AssignDb :=
  { courses := [{ id := 1, instructorId := 2 }],
    assignments := [{ id := 1, courseId := 1, maxPoints := 100 }],
    submissions := [gradedSubW] }

/-- `dbOneLessonCompletedAt3` after the `ProgressHandler` update
`(lesson 1, course 1, +5 minutes, completed)` at time 9: the progress row
accumulates time, the aggregate is rewritten from the pre-transaction
snapshot and `lastActivityAt` is bumped. -/
def dbAfterProgressHandlerW : Db :=
  { modules := [{ id := 1, courseId := 1 }],
    lessons := [{ id := 1, moduleId := 1 }],
    progresses := [{ id := 1, userId := 1, lessonId := 1, courseId := 1,
                     completed := true, completedAt := some 3, timeSpent := 15 }],
    enrollments := [{ id := 1, userId := 1, courseId := 1, progress := 100,
                      totalLessons := 1, completedLessons := 1, timeSpent := 10,
                      certificateId := none, completedAt := some 3,
                      certificateIssuedAt := none, lastActivityAt := 9 }],
    certificates := [] }

/-- `dbOneLessonCompletedAt3` after the `LessonHandler` time write of 30:
only the progress row's accumulated time changes. -/
def dbAfterLessonHandlerW : Db :=
  { modules := [{ id := 1, courseId := 1 }],
    lessons := [{ id := 1, moduleId := 1 }],
    progresses := [{ id := 1, userId := 1, lessonId := 1, courseId := 1,
                     completed := true, completedAt := some 3, timeSpent := 40 }],
    enrollments := [{ id := 1, userId := 1, courseId := 1, progress := 100,
                      totalLessons := 1, completedLessons := 1, timeSpent := 10,
                      certificateId := none, completedAt := some 3,
                      certificateIssuedAt := none, lastActivityAt := 3 }],
    certificates := [] }

/-- `dbOneLessonFresh` after the `ProgressHandler` update
`(lesson 1, course 1, +5 minutes, completed)` at time 5: the progress row
is created completed, but the enrollment aggregate is recomputed from the
pre-transaction snapshot, in which no lesson is completed. -/
def dbFreshOutW : Db :=
  { modules := [{ id := 1, courseId := 1 }],
    lessons := [{ id := 1, moduleId := 1 }],
    progresses := [{ id := 1, userId := 1, lessonId := 1, courseId := 1,
                     completed := true, completedAt := some 5, timeSpent := 5 }],
    enrollments := [{ id := 1, userId := 1, courseId := 1, progress := 0,
                      totalLessons := 1, completedLessons := 0, timeSpent := 0,
                      certificateId := none, completedAt := none,
                      certificateIssuedAt := none, lastActivityAt := 5 }],
    certificates := [] }

/-- The certificate minted from `dbCertEligible` at time 9. -/
def certIssuedW : Certificate :=
  { id := "LHC-7-9", enrollmentId := 7, userId := 1, courseId := 1,
    issueDate := 9, expiryDate := some 63072009, verificationCode := "LHC-9" }

/-- `dbCertEligible` after the successful issuance at time 9. -/
def dbCertIssuedW : Db :=
  { modules := [{ id := 1, courseId := 1 }],
    lessons := [{ id := 1, moduleId := 1 }],
    progresses := [{ id := 1, userId := 1, lessonId := 1, courseId := 1,
                     completed := true, completedAt := some 3, timeSpent := 10 }],
    enrollments := [{ id := 7, userId := 1, courseId := 1, progress := 100,
                      totalLessons := 1, completedLessons := 1, timeSpent := 10,
                      certificateId := some "LHC-7-9", completedAt := some 3,
                      certificateIssuedAt := some 9, lastActivityAt := 3 }],
    certificates := [certIssuedW] }

end LearningHub

namespace LearningHub

/-! ### Helper lemmas (shared) -/

/-- `goContains` agrees with contiguous-sublist containment. -/
theorem goContains_eq_true_iff (s sub : GoStr) :
    goContains s sub = true ↔ sub <:+: s := by
  induction s with
  | nil =>
    simp [goContains]
  | cons c t ih =>
    simp [goContains, ih, List.infix_cons_iff]

/-- The row returned by `find?` satisfies the filter. -/
theorem find?_pred {α : Type} (p : α → Bool) (l : List α) (a : α)
    (h : l.find? p = some a) : p a = true :=
  List.find?_some h

/-- After a GORM `Save` (replace every row whose key equals the saved
record's key), `find?` with a filter the saved record satisfies returns the
saved record, provided the filter previously returned some row with that
key. -/
theorem find?_replaceById {α : Type} (idf : α → Nat) (p : α → Bool)
    (l : List α) (a b : α) (h : l.find? p = some a) (hb : p b = true) :
    (l.map (fun x => if idf x == idf a then b else x)).find? p = some b := by
  induction l with
  | nil => simp at h
  | cons x t ih =>
    by_cases hx : p x = true
    · rw [List.find?_cons_of_pos _ hx] at h
      injection h with h
      subst h
      simp only [List.map_cons, beq_self_eq_true, if_pos]
      exact List.find?_cons_of_pos _ hb
    · rw [List.find?_cons_of_neg _ (by simpa using hx)] at h
      simp only [List.map_cons]
      by_cases hid : (idf x == idf a) = true
      · rw [if_pos hid]
        exact List.find?_cons_of_pos _ hb
      · rw [if_neg hid]
        rw [List.find?_cons_of_neg _ (by simpa using hx)]
        exact ih h

/-- Concrete evaluation, shared by several checks: the `ProgressHandler`
update on the fresh one-lesson course creates the progress row as
completed, while the aggregate — recomputed from the pre-transaction
snapshot — stays at `0/1*100 = 0`. -/
theorem progressHandler_eval_fresh :
    progressHandlerUpdateLessonProgress dbOneLessonFresh 5 1
      { lessonId := 1, courseId := 1, timeSpent := 5, completed := true }
      = .ok dbFreshOutW := by
  have h0 : (0 : ℚ) / 1 * 100 = 0 := by norm_num
  have hle : ¬ ((100 : ℚ) ≤ 0) := by norm_num
  simp [progressHandlerUpdateLessonProgress, updateEnrollmentProgress,
    calculateDetailedProgress, completedLessonsJoin, totalLessonsCount,
    timeSpentJoin, findEnrollment, findLessonProgress, saveEnrollment,
    saveLessonProgress, createLessonProgress, freshProgressId,
    dbOneLessonFresh, dbFreshOutW, List.find?, List.filter, List.any,
    List.foldr, h0, hle]

/-- Concrete evaluation, shared by several checks: the `ProgressHandler`
re-mark of the already-completed lesson accumulates time, keeps the stored
completion timestamp, and rewrites the aggregate from the pre-transaction
snapshot (`1/1*100 = 100`). -/
theorem progressHandler_eval_completed :
    progressHandlerUpdateLessonProgress dbOneLessonCompletedAt3 9 1
      { lessonId := 1, courseId := 1, timeSpent := 5, completed := true }
      = .ok dbAfterProgressHandlerW := by
  have h1 : (1 : ℚ) / 1 * 100 = 100 := by norm_num
  simp [progressHandlerUpdateLessonProgress, updateEnrollmentProgress,
    calculateDetailedProgress, completedLessonsJoin, totalLessonsCount,
    timeSpentJoin, findEnrollment, findLessonProgress, saveEnrollment,
    saveLessonProgress, createLessonProgress, freshProgressId,
    dbOneLessonCompletedAt3, dbAfterProgressHandlerW, List.find?, List.filter,
    List.any, List.foldr, h1]

/-- On success, `updateEnrollmentProgress` stores into the enrollment row
exactly the aggregate of `calculateDetailedProgress` over its read view,
bumps `lastActivityAt`, and touches no progress row. -/
theorem updateEnrollmentProgress_ok (txDb readDb d : Db) (now uid cid : Nat)
    (h : updateEnrollmentProgress txDb readDb now uid cid = .ok d) :
    (findEnrollment d uid cid).map Enrollment.progress =
      some (calculateDetailedProgress readDb cid uid).progressPercentage ∧
    (findEnrollment d uid cid).map Enrollment.completedLessons =
      some ((calculateDetailedProgress readDb cid uid).completedLessons : Int) ∧
    (findEnrollment d uid cid).map Enrollment.totalLessons =
      some ((calculateDetailedProgress readDb cid uid).totalLessons : Int) ∧
    (findEnrollment d uid cid).map Enrollment.timeSpent =
      some (calculateDetailedProgress readDb cid uid).timeSpentMinutes ∧
    (findEnrollment d uid cid).map Enrollment.lastActivityAt = some now ∧
    d.progresses = txDb.progresses := by
  unfold updateEnrollmentProgress at h
  cases hfe : findEnrollment txDb uid cid with
  | none => rw [hfe] at h; exact absurd h (by simp)
  | some e =>
    rw [hfe] at h
    dsimp only at h
    rw [Except.ok.injEq] at h
    subst h
    have hfe2 : txDb.enrollments.find?
        (fun x => x.userId == uid && x.courseId == cid) = some e := hfe
    have hpe : (fun x : Enrollment => x.userId == uid && x.courseId == cid) e = true :=
      find?_pred (fun x : Enrollment => x.userId == uid && x.courseId == cid)
        txDb.enrollments e hfe2
    have hfind :
        findEnrollment (saveEnrollment txDb
          { e with
              progress := (calculateDetailedProgress readDb cid uid).progressPercentage,
              completedLessons := ((calculateDetailedProgress readDb cid uid).completedLessons : Int),
              totalLessons := ((calculateDetailedProgress readDb cid uid).totalLessons : Int),
              timeSpent := (calculateDetailedProgress readDb cid uid).timeSpentMinutes,
              lastActivityAt := now,
              completedAt := if 100 ≤ (calculateDetailedProgress readDb cid uid).progressPercentage ∧
                  e.completedAt = none then some now else e.completedAt }) uid cid
          = some { e with
              progress := (calculateDetailedProgress readDb cid uid).progressPercentage,
              completedLessons := ((calculateDetailedProgress readDb cid uid).completedLessons : Int),
              totalLessons := ((calculateDetailedProgress readDb cid uid).totalLessons : Int),
              timeSpent := (calculateDetailedProgress readDb cid uid).timeSpentMinutes,
              lastActivityAt := now,
              completedAt := if 100 ≤ (calculateDetailedProgress readDb cid uid).progressPercentage ∧
                  e.completedAt = none then some now else e.completedAt } :=
      find?_replaceById Enrollment.id _ txDb.enrollments e _ hfe2 hpe
    refine ⟨?_, ?_, ?_, ?_, ?_, rfl⟩ <;> rw [hfind] <;> rfl

/-- On success, the `LessonHandler` time-tracking entry point leaves the
enrollments table untouched. -/
theorem lessonHandler_enrollments_frame (db d : Db) (uid lid : Nat) (t : Int)
    (h : lessonHandlerUpdateLessonProgress db uid lid t = .ok d) :
    d.enrollments = db.enrollments := by
  unfold lessonHandlerUpdateLessonProgress at h
  cases hfl : findLesson db lid with
  | none => rw [hfl] at h; exact absurd h (by simp)
  | some l =>
    rw [hfl] at h
    dsimp only at h
    cases hfe : findEnrollment db uid (lessonCourseId db l) with
    | none => rw [hfe] at h; exact absurd h (by simp)
    | some e =>
      rw [hfe] at h
      dsimp only at h
      cases hfp : findLessonProgress db uid lid with
      | none =>
        rw [hfp] at h
        rw [Except.ok.injEq] at h
        subst h
        rfl
      | some p =>
        rw [hfp] at h
        rw [Except.ok.injEq] at h
        subst h
        rfl

/-! ### C6 and C7 -/

/-- C6: quiz-attempt completion is idempotent — calling complete on an
already-completed attempt returns the stored attempt unchanged (same score,
earned points, pass flag, completion timestamp, and time spent) and leaves
the database unchanged, without recomputing anything. -/
theorem C6_complete_idempotent (st : QuizDb) (now uid aid : Nat)
    (att : QuizAttempt) (hfind : findAttempt st aid uid = some att)
    (hdone : att.isCompleted = true) :
    completeQuizAttempt st now uid aid = .ok (st, att) := by
  unfold completeQuizAttempt
  rw [hfind]
  simp [hdone]

/-- C6 witness: completing the stored completed attempt at a later time
returns it verbatim with the state untouched. -/
theorem C6_complete_idempotent_witness :
    completeQuizAttempt stQuizDone 20 1 1 = .ok (stQuizDone, attDone) :=
  C6_complete_idempotent stQuizDone 20 1 1 attDone (by decide) (by decide)

/-- C7: once an attempt is completed its answers are frozen — submitting an
answer against a completed attempt is rejected with a forbidden error (the
handler aborts before any write, so every QuizAnswer row of the attempt is
left unchanged). -/
theorem C7_submit_after_complete_forbidden (low : Char → Char) (st : QuizDb)
    (uid aid qid : Nat) (ans : GoStr) (att : QuizAttempt)
    (hfind : findAttempt st aid uid = some att)
    (hdone : att.isCompleted = true) :
    submitQuizAnswer low st uid aid qid ans = .error Err.forbidden := by
  unfold submitQuizAnswer
  rw [hfind]
  simp [hdone]

/-- C7 witness: re-submitting an answer for question 1 of the completed
attempt is rejected as forbidden. -/
theorem C7_submit_after_complete_forbidden_witness :
    submitQuizAnswer Char.toLower stQuizDone 1 1 1 ['b'] = .error Err.forbidden :=
  C7_submit_after_complete_forbidden Char.toLower stQuizDone 1 1 1 ['b'] attDone
    (by decide) (by decide)

/-! ### C5 -/

/-- C5: the single-answer grading function returns correct for
multiple-choice and true/false questions exactly when the submitted text
equals the stored correct answer after trimming and lowercasing; for
short-answer questions exactly when either normalized string contains the
other as a contiguous substring; for coding or unrecognized types exactly
on normalized equality; and the points stored with an answer are the
question's full point value when correct and `0` otherwise. -/
theorem C5_check_answer_grading (low : Char → Char) (q : QuizQuestion) (a : GoStr) :
    (checkAnswer low q a = true ↔ AnswerMatchesSpec low q a) ∧
    ((checkAnswer low q a = true ∧ answerPointsEarned low q a = (q.points : ℚ)) ∨
     (checkAnswer low q a = false ∧ answerPointsEarned low q a = 0)) := by
  have hmain : checkAnswer low q a = true ↔ AnswerMatchesSpec low q a := by
    unfold checkAnswer AnswerMatchesSpec
    cases q.questionType
    case shortAnswer =>
      simp only [Bool.or_eq_true, goContains_eq_true_iff]
    all_goals
      simp only [beq_iff_eq]
      exact eq_comm
  refine ⟨hmain, ?_⟩
  by_cases hc : checkAnswer low q a = true
  · exact Or.inl ⟨hc, by simp [answerPointsEarned, hc]⟩
  · refine Or.inr ⟨by simpa using hc, by simp [answerPointsEarned, hc]⟩

/-! ### C10 -/

/-- C10: a lesson with at least one progress record referencing it cannot
be deleted — the request is rejected (leaving the database untouched), and
a successful deletion implies no progress record referenced the lesson and
the progress table is unchanged, so progress records never dangle. -/
theorem C10_delete_lesson_guard (db : Db) (lid : Nat) (l : Lesson)
    (hl : findLesson db lid = some l) :
    (0 < (db.progresses.filter (fun p => p.lessonId == lid)).length →
      deleteLesson db lid = .error Err.progressRecordsExist) ∧
    (∀ db2, deleteLesson db lid = .ok db2 →
      (db.progresses.filter (fun p => p.lessonId == lid)).length = 0 ∧
      db2.progresses = db.progresses) := by
  unfold deleteLesson
  rw [hl]
  constructor
  · intro hpos
    simp [hpos]
  · intro db2 h
    by_cases hpos : 0 < (db.progresses.filter (fun p => p.lessonId == lid)).length
    · simp [hpos] at h
    · simp only [if_neg hpos, Except.ok.injEq] at h
      refine ⟨by omega, ?_⟩
      rw [← h]

/-- C10 witness: lesson 1 has a progress record, so deleting it is
rejected. -/
theorem C10_delete_lesson_guard_witness :
    deleteLesson dbOneLessonCompletedAt3 1 = .error Err.progressRecordsExist :=
  (C10_delete_lesson_guard dbOneLessonCompletedAt3 1 { id := 1, moduleId := 1 }
    (by decide)).1 (by decide)

/-! ### C4 -/

/-- C4: evaluation at the failing input — completing an in-flight attempt
whose snapshotted total points are `0` performs the unguarded float
division `(0 / 0) * 100`, storing a `NaN` score (with `passed = false`
since every `NaN` comparison is false), not the `0` the claim requires. -/
theorem C4_total_points_zero_nan_eval :
    (completeQuizAttempt stQuizZeroTotal 9 1 1).map
        (fun r => (r.2.score, r.2.isPassed, r.2.totalPoints))
      = .ok (GoFloat.nan, false, 0) ∧
    GoFloat.nan ≠ GoFloat.finite 0 := by
  exact ⟨by decide, by decide⟩

/-! ### C2 -/

/-- C2: certificate issuance is one-shot per enrollment — a successful
issue implies the enrollment had progress at least 100 and no attached
certificate; after it, a second issue call for the same enrollment is
rejected with the already-issued error (the handler aborts before any
write, so no new certificate row is created and the enrollment's
certificate reference stays as the first call set it), exactly one
certificate row was added, and the enrollment references the minted
certificate. -/
theorem C2_certificate_one_shot (db db1 : Db) (now now2 uid cid : Nat)
    (cert : Certificate)
    (h : generateCertificate db now uid cid = .ok (db1, cert)) :
    (∃ e, findEnrollment db uid cid = some e ∧ 100 ≤ e.progress ∧
      e.certificateId = none) ∧
    generateCertificate db1 now2 uid cid = .error Err.alreadyIssued ∧
    db1.certificates.length = db.certificates.length + 1 ∧
    (findEnrollment db1 uid cid).map Enrollment.certificateId = some (some cert.id) := by
  unfold generateCertificate at h
  cases hfe : findEnrollment db uid cid with
  | none => rw [hfe] at h; exact absurd h (by simp)
  | some e =>
    rw [hfe] at h
    dsimp only at h
    by_cases hp : e.progress < 100
    · rw [if_pos hp] at h; exact absurd h (by simp)
    · rw [if_neg hp] at h
      cases hco : e.certificateId with
      | some c0 => rw [hco] at h; simp at h
      | none =>
        rw [hco] at h
        simp at h
        obtain ⟨hdb, hcert⟩ := h
        subst hdb
        subst hcert
        have hfe2 : db.enrollments.find?
            (fun x => x.userId == uid && x.courseId == cid) = some e := hfe
        have hpe : (fun x : Enrollment => x.userId == uid && x.courseId == cid) e = true :=
          find?_pred (fun x : Enrollment => x.userId == uid && x.courseId == cid)
            db.enrollments e hfe2
        have hfind1 : findEnrollment
            (saveEnrollment
              { db with certificates := db.certificates ++
                  [{ id := "LHC-" ++ toString e.id ++ "-" ++ toString now,
                     enrollmentId := e.id, userId := e.userId, courseId := e.courseId,
                     issueDate := now, expiryDate := some (addTwoYears now),
                     verificationCode := generateVerificationCode now }] }
              { e with
                  certificateId := some ("LHC-" ++ toString e.id ++ "-" ++ toString now),
                  certificateIssuedAt := some now }) uid cid
            = some { e with
                certificateId := some ("LHC-" ++ toString e.id ++ "-" ++ toString now),
                certificateIssuedAt := some now } :=
          find?_replaceById Enrollment.id
            (fun x => x.userId == uid && x.courseId == cid) db.enrollments e _ hfe2 hpe
        refine ⟨⟨e, rfl, not_lt.mp hp, hco⟩, ?_, ?_, ?_⟩
        · unfold generateCertificate
          rw [hfind1]
          simp [hp]
        · simp [saveEnrollment]
        · rw [hfind1]
          rfl

/-- C2 witness: the second issuance against the post-issue state is
rejected with the already-issued error. -/
theorem C2_certificate_one_shot_witness :
    generateCertificate dbCertIssuedW 11 1 1 = .error Err.alreadyIssued :=
  (C2_certificate_one_shot dbCertEligible dbCertIssuedW 9 11 1 1 certIssuedW
    (by decide)).2.1

/-! ### C3 -/

/-- C3 counterexample: a successful `LessonHandler` lesson-progress write
changes the stored lesson progress (time 10 becomes 40) but performs no
enrollment write at all — the enrollments table is bit-for-bit unchanged —
so the enrollment aggregate is left stale (stored time 10 against a
recomputed 40), contradicting the claim that every entry point recomputes
and persists the aggregate in the same transaction. -/
theorem C3_lesson_handler_skips_aggregate_cex :
    lessonHandlerUpdateLessonProgress dbOneLessonCompletedAt3 1 1 30
      = .ok dbAfterLessonHandlerW ∧
    dbAfterLessonHandlerW.enrollments = dbOneLessonCompletedAt3.enrollments ∧
    (findLessonProgress dbAfterLessonHandlerW 1 1).map LessonProgress.timeSpent
      = some 40 ∧
    (findEnrollment dbAfterLessonHandlerW 1 1).map Enrollment.timeSpent = some 10 ∧
    (calculateDetailedProgress dbAfterLessonHandlerW 1 1).timeSpentMinutes = 40 := by
  refine ⟨by decide, by decide, by decide, by decide, by decide⟩

/-- C3 (amended): only the `ProgressHandler` entry point persists the
enrollment aggregate together with the lesson-progress write inside one
transaction — and the aggregate it persists is computed from the
pre-transaction snapshot, since the count queries run outside the
transaction — while the `LessonHandler` time-tracking entry point writes
only the lesson-progress row and leaves the enrollments table untouched. -/
theorem C3_aggregate_update_entry_points (db dbA dbB : Db) (now uid lid : Nat)
    (t : Int) (req : ProgressRequest)
    (hA : progressHandlerUpdateLessonProgress db now uid req = .ok dbA)
    (hB : lessonHandlerUpdateLessonProgress db uid lid t = .ok dbB) :
    ((findEnrollment dbA uid req.courseId).map Enrollment.progress =
      some (calculateDetailedProgress db req.courseId uid).progressPercentage ∧
     (findEnrollment dbA uid req.courseId).map Enrollment.completedLessons =
      some ((calculateDetailedProgress db req.courseId uid).completedLessons : Int) ∧
     (findEnrollment dbA uid req.courseId).map Enrollment.totalLessons =
      some ((calculateDetailedProgress db req.courseId uid).totalLessons : Int) ∧
     (findEnrollment dbA uid req.courseId).map Enrollment.timeSpent =
      some (calculateDetailedProgress db req.courseId uid).timeSpentMinutes ∧
     (findEnrollment dbA uid req.courseId).map Enrollment.lastActivityAt = some now) ∧
    dbB.enrollments = db.enrollments := by
  refine ⟨?_, lessonHandler_enrollments_frame db dbB uid lid t hB⟩
  unfold progressHandlerUpdateLessonProgress at hA
  have h6 := updateEnrollmentProgress_ok _ db dbA now uid req.courseId hA
  exact ⟨h6.1, h6.2.1, h6.2.2.1, h6.2.2.2.1, h6.2.2.2.2.1⟩

/-- C3 witness: the `LessonHandler` write leaves the enrollments table of
the one-lesson state unchanged. -/
theorem C3_aggregate_update_entry_points_witness :
    dbAfterLessonHandlerW.enrollments = dbOneLessonCompletedAt3.enrollments :=
  (C3_aggregate_update_entry_points dbOneLessonCompletedAt3 dbAfterProgressHandlerW
    dbAfterLessonHandlerW 9 1 1 30
    { lessonId := 1, courseId := 1, timeSpent := 5, completed := true }
    progressHandler_eval_completed (by decide)).2

/-! ### C8 -/

/-- C8 counterexample: the `CourseHandler` mark-completed entry point
overwrites the stored completion timestamp on a lesson that is already
completed — the row's timestamp 3 becomes the call time 5 — contradicting
the claim that every progress-update entry point preserves it. -/
theorem C8_course_handler_resets_timestamp_cex :
    (findLessonProgress dbOneLessonCompletedAt3 1 1).map LessonProgress.completedAt
      = some (some 3) ∧
    (courseHandlerUpdateLessonProgress dbOneLessonCompletedAt3 5 1 1).map
        (fun d => (findLessonProgress d 1 1).map LessonProgress.completedAt)
      = .ok (some (some 5)) ∧
    (some (some 5) : Option (Option Nat)) ≠ some (some 3) := by
  refine ⟨by decide, by decide, by decide⟩

/-- C8 (amended): on the `ProgressHandler` entry point the completion
timestamp is written only on the not-completed-to-completed transition —
re-marking an already-completed lesson leaves the stored timestamp
unchanged — while the `CourseHandler` entry point overwrites it on every
call. -/
theorem C8_progress_handler_preserves_timestamp (db dbA : Db) (now uid : Nat)
    (req : ProgressRequest) (lp : LessonProgress)
    (hfind : findLessonProgress db uid req.lessonId = some lp)
    (hdone : lp.completed = true)
    (h : progressHandlerUpdateLessonProgress db now uid req = .ok dbA) :
    (findLessonProgress dbA uid req.lessonId).map LessonProgress.completedAt
      = some lp.completedAt := by
  unfold progressHandlerUpdateLessonProgress at h
  rw [hfind] at h
  have h6 := updateEnrollmentProgress_ok _ db dbA now uid req.courseId h
  have hfind2 : db.progresses.find?
      (fun x => x.userId == uid && x.lessonId == req.lessonId) = some lp := hfind
  have hplp : (fun x : LessonProgress => x.userId == uid && x.lessonId == req.lessonId) lp
      = true :=
    find?_pred (fun x : LessonProgress => x.userId == uid && x.lessonId == req.lessonId)
      db.progresses lp hfind2
  have hfound : findLessonProgress dbA uid req.lessonId
      = some { lp with
                 completed := req.completed,
                 completedAt := if req.completed && !lp.completed then some now
                   else lp.completedAt,
                 timeSpent := lp.timeSpent + req.timeSpent } := by
    show dbA.progresses.find? (fun x => x.userId == uid && x.lessonId == req.lessonId) = _
    rw [h6.2.2.2.2.2]
    exact find?_replaceById LessonProgress.id
      (fun x => x.userId == uid && x.lessonId == req.lessonId) db.progresses lp _
      hfind2 hplp
  rw [hfound]
  simp [hdone]

/-- C8 witness: re-marking the already-completed lesson through the
`ProgressHandler` keeps its stored completion timestamp 3. -/
theorem C8_progress_handler_preserves_timestamp_witness :
    (findLessonProgress dbAfterProgressHandlerW 1 1).map LessonProgress.completedAt
      = some (some 3) :=
  C8_progress_handler_preserves_timestamp dbOneLessonCompletedAt3
    dbAfterProgressHandlerW 9 1
    { lessonId := 1, courseId := 1, timeSpent := 5, completed := true }
    { id := 1, userId := 1, lessonId := 1, courseId := 1, completed := true,
      completedAt := some 3, timeSpent := 10 }
    (by decide) (by decide) progressHandler_eval_completed

/-! ### C9 -/

/-- C9 counterexample: with the caller being the course instructor and the
grade 0 inside the claimed range `0 <= grade <= maxPoints = 100`, grading
is nevertheless rejected — the `binding:"required"` rule on the `float64`
grade field refuses the zero value before the handler body runs —
contradicting the claim that the boundary value 0 succeeds. -/
theorem C9_grade_zero_rejected_cex :
    (stAssign.courses.find? (fun x => x.id == 1)).map Course.instructorId = some 2 ∧
    ((0 : ℚ) ≤ 0 ∧ (0 : ℚ) ≤ ((100 : Int) : ℚ)) ∧
    gradeAssignment stAssign 9 2 1 { grade := 0, feedback := [] }
      = .error Err.requiredFieldZero := by
  refine ⟨by decide, ⟨le_refl 0, by decide⟩, by decide⟩

/-- C9 (amended): grading succeeds exactly when the caller is the course's
instructor and `0 < grade <= maxPoints` (the boundary value 0 is rejected
by the required-field binding before the handler runs; any other
out-of-range grade is rejected as a validation error before any write),
and a successful call stores the grade, feedback, graded flag and grading
timestamp. -/
theorem C9_grade_assignment_conditions (st : AssignDb) (now caller sid : Nat)
    (inp : GradeInput) (s : AssignmentSubmission) (asn : Assignment) (course : Course)
    (hs : st.submissions.find? (fun x => x.id == sid) = some s)
    (ha : st.assignments.find? (fun x => x.id == s.assignmentId) = some asn)
    (hc : st.courses.find? (fun x => x.id == asn.courseId) = some course) :
    ((∃ out, gradeAssignment st now caller sid inp = .ok out) ↔
      (course.instructorId = caller ∧ 0 < inp.grade ∧ inp.grade ≤ (asn.maxPoints : ℚ))) ∧
    (∀ st2 s1, gradeAssignment st now caller sid inp = .ok (st2, s1) →
      s1.grade = some inp.grade ∧ s1.feedback = inp.feedback ∧
      s1.isGraded = true ∧ s1.gradedAt = some now) := by
  unfold gradeAssignment bindGradeInput
  by_cases hg0 : inp.grade = 0
  · rw [if_pos hg0]
    dsimp only
    constructor
    · constructor
      · rintro ⟨out, hout⟩
        exact absurd hout (by simp)
      · rintro ⟨_, hpos, _⟩
        rw [hg0] at hpos
        exact absurd hpos (lt_irrefl 0)
    · intro st2 s1 hok
      exact absurd hok (by simp)
  · rw [if_neg hg0]
    dsimp only
    rw [hs]
    dsimp only
    rw [ha]
    simp only [Option.getD_some]
    rw [hc]
    dsimp only
    by_cases hi : (course.instructorId == caller) = true
    · rw [hi]
      simp only [Bool.not_true, Bool.false_eq_true, if_false]
      by_cases hrange : (inp.grade < 0 ∨ (asn.maxPoints : ℚ) < inp.grade)
      · rw [if_pos hrange]
        constructor
        · constructor
          · rintro ⟨out, hout⟩
            exact absurd hout (by simp)
          · rintro ⟨_, hpos, hle⟩
            rcases hrange with hneg | hgt
            · exact absurd (lt_trans hpos hneg) (lt_irrefl 0)
            · exact absurd (lt_of_le_of_lt hle hgt) (lt_irrefl _)
        · intro st2 s1 hok
          exact absurd hok (by simp)
      · rw [if_neg hrange]
        push_neg at hrange
        constructor
        · constructor
          · intro _
            refine ⟨by simpa using hi, ?_, hrange.2⟩
            rcases lt_or_eq_of_le hrange.1 with hlt | heq
            · exact hlt
            · exact absurd heq.symm hg0
          · intro _
            exact ⟨_, rfl⟩
        · intro st2 s1 hok
          simp only [Except.ok.injEq, Prod.mk.injEq] at hok
          rw [← hok.2]
          exact ⟨rfl, rfl, rfl, rfl⟩
    · rw [Bool.not_eq_true] at hi
      rw [hi]
      simp only [Bool.not_false, if_true]
      constructor
      · constructor
        · rintro ⟨out, hout⟩
          exact absurd hout (by simp)
        · rintro ⟨hinst, _, _⟩
          rw [hinst] at hi
          simp at hi
      · intro st2 s1 hok
        exact absurd hok (by simp)

/-- C9 witness: grade 85 against maxPoints 100 from the instructor
succeeds and stores grade, feedback, graded flag and grading timestamp. -/
theorem C9_grade_assignment_conditions_witness :
    gradedSubW.grade = some 85 ∧ gradedSubW.feedback = ['o', 'k'] ∧
    gradedSubW.isGraded = true ∧ gradedSubW.gradedAt = some 9 :=
  (C9_grade_assignment_conditions stAssign 9 2 1 { grade := 85, feedback := ['o', 'k'] }
    { id := 1, assignmentId := 1, userId := 3, grade := none, feedback := [],
      isGraded := false, gradedAt := none }
    { id := 1, courseId := 1, maxPoints := 100 } { id := 1, instructorId := 2 }
    (by decide) (by decide) (by decide)).2
    stAssignGraded gradedSubW (by decide)

/-! ### C1 -/

/-- C1: evaluation at the failing input — the course has a single lesson
and the user completes it through the `ProgressHandler`; after the commit
the progress row is completed (`completed = 1`, `total = 1`, so the claimed
invariant demands a stored progress of `1/1*100 = 100`), but the stored
progress is `0`, because `updateEnrollmentProgress` computes the aggregate
with `h.DB` count queries that cannot see the transaction's uncommitted
lesson-progress write. -/
theorem C1_progress_aggregate_stale_eval :
    progressHandlerUpdateLessonProgress dbOneLessonFresh 5 1
        { lessonId := 1, courseId := 1, timeSpent := 5, completed := true }
      = .ok dbFreshOutW ∧
    (findEnrollment dbFreshOutW 1 1).map Enrollment.progress = some 0 ∧
    (findLessonProgress dbFreshOutW 1 1).map LessonProgress.completed = some true ∧
    completedLessonsJoin dbFreshOutW 1 1 = 1 ∧ totalLessonsCount dbFreshOutW 1 = 1 ∧
    (1 : ℚ) / 1 * 100 = 100 ∧ (0 : ℚ) ≠ 100 := by
  refine ⟨progressHandler_eval_fresh, by decide, by decide, by decide, by decide,
    by norm_num, by norm_num⟩

end LearningHub
